import Mathlib

/-!
Verification development for the strategy backtesting and risk-sizing engine.

The definitions below are a shallow embedding of src/lib/backtesting-engine.ts,
src/lib/risk-management.ts and src/app/api/backtest/optimize/route.ts.
JavaScript numbers are modelled as exact rationals; Math.sqrt, Math.pow and the
calendar bucketing of Date values are abstracted behind a JsRuntime record of
uninterpreted functions (no verified property depends on their values);
Math.random is modelled as an explicit stream of draws passed to the engine.
Where the rational embedding departs from IEEE float corner cases (division by
zero yielding Infinity or NaN in JavaScript), the departure is noted next to
the definition.
-/

set_option maxRecDepth 100000
set_option linter.unusedVariables false

namespace Backtesting

/-- Abstract interface to the JavaScript runtime functions whose exact values are
irrational or calendar dependent: Math.sqrt, Math.pow, and the year-month key a
Date produces for monthly-return bucketing. The engine is embedded relative to
an arbitrary such runtime. -/
structure JsRuntime where
  sqrtF : ℚ → ℚ
  powF : ℚ → ℚ → ℚ
  monthKeyF : ℤ → String

/-- One named numeric strategy parameter (the only shape the engine ever builds). -/
structure StrategyParameter where
  name : String
  value : ℚ
deriving DecidableEq

/-- The slice of IStrategy the engine reads and writes: its parameter list. -/
structure IStrategy where
  parameters : List StrategyParameter
deriving DecidableEq

/-- BacktestData: one OHLCV bar. Timestamps are milliseconds since the epoch. -/
structure BacktestData where
  timestamp : ℤ
  symbol : String
  open_ : ℚ
  high : ℚ
  low : ℚ
  close : ℚ
  volume : ℤ
deriving DecidableEq

/-- BacktestParameters from the source, with dates as millisecond timestamps. -/
structure BacktestParameters where
  strategy : IStrategy
  startDate : ℤ
  endDate : ℤ
  initialCapital : ℚ
  symbols : List String
  commission : ℚ
  slippage : ℚ
  maxPositions : ℕ
deriving DecidableEq

inductive Side where
  | LONG
  | SHORT
deriving DecidableEq

inductive ExitReason where
  | STOP_LOSS
  | TAKE_PROFIT
  | SIGNAL_EXIT
  | END_OF_PERIOD
deriving DecidableEq

structure BacktestPosition where
  symbol : String
  side : Side
  entryPrice : ℚ
  entryDate : ℤ
  quantity : ℤ
  stopLoss : Option ℚ
  takeProfit : Option ℚ
  value : ℚ
deriving DecidableEq

structure BacktestTrade where
  symbol : String
  side : Side
  entryPrice : ℚ
  exitPrice : ℚ
  entryDate : ℤ
  exitDate : ℤ
  quantity : ℤ
  profit : ℚ
  profitPercent : ℚ
  commission : ℚ
  holdingPeriod : ℤ
  reason : ExitReason
deriving DecidableEq

structure EquityPoint where
  date : ℤ
  equity : ℚ
  drawdown : ℚ
  drawdownPercent : ℚ
deriving DecidableEq

structure BacktestMetrics where
  totalReturn : ℚ
  totalReturnPercent : ℚ
  annualizedReturn : ℚ
  sharpeRatio : ℚ
  maxDrawdown : ℚ
  maxDrawdownPercent : ℚ
  volatility : ℚ
  totalTrades : ℕ
  winningTrades : ℕ
  losingTrades : ℕ
  winRate : ℚ
  averageWin : ℚ
  averageLoss : ℚ
  profitFactor : ℚ
  largestWin : ℚ
  largestLoss : ℚ
  averageHoldingPeriod : ℚ
  totalCommissions : ℚ
  calmarRatio : ℚ
  sortinoRatio : ℚ
deriving DecidableEq

/-- One monthly-return bucket; the source field named return is called ret here
because return is a Lean keyword. -/
structure MonthlyReturn where
  month : String
  ret : ℚ
  returnPercent : ℚ
deriving DecidableEq

structure PerformanceStats where
  bestMonth : ℚ
  worstMonth : ℚ
  positiveMonths : ℕ
  negativeMonths : ℕ
  maxConsecutiveWins : ℕ
  maxConsecutiveLosses : ℕ
deriving DecidableEq

inductive SignalType where
  | BUY
  | SELL
  | HOLD
deriving DecidableEq

structure TradingSignal where
  type : SignalType
  strength : ℚ
  price : ℚ
  timestamp : ℤ
  reasoning : String
deriving DecidableEq

structure BacktestResult where
  strategy : IStrategy
  parameters : BacktestParameters
  metrics : BacktestMetrics
  trades : List BacktestTrade
  equityCurve : List EquityPoint
  monthlyReturns : List MonthlyReturn
  performanceStats : PerformanceStats
deriving DecidableEq

/-- The private riskFreeRate field of the engine (2 percent annual). -/
def riskFreeRate : ℚ := 0.02

/-- Sum of closes, as the reduce calls over bar windows in the source. -/
def sumCloses (l : List BacktestData) : ℚ := l.foldl (fun s d => s + d.close) 0

/-- JavaScript Array.prototype.slice with a single negative argument, slice(-n):
the last n elements (the whole list when it is shorter than n). -/
def sliceLast (n : ℕ) (l : List α) : List α := l.drop (l.length - n)

/-- Decimal rendering of a rational to one fractional digit, standing in for the
JavaScript Number.toFixed(1) that appears only inside human-readable reasoning
strings; no computation in the engine reads these strings back. -/
def toFixedOne (q : ℚ) : String :=
  let n : ℤ := ⌊q * 10 + 1 / 2⌋
  toString (n / 10) ++ "." ++ toString (n % 10).natAbs

/-- Decimal rendering to two fractional digits, standing in for toFixed(2). -/
def toFixedTwo (q : ℚ) : String :=
  let n : ℤ := ⌊q * 100 + 1 / 2⌋
  toString (n / 100) ++ "." ++ toString (n % 100).natAbs

/-- calculateRSI (source lines 344-363): Wilder average gain over average loss on
the trailing period changes; 50 with too little data, 100 when there are no
losses. -/
def calculateRSI (data : List BacktestData) (period : ℕ) : ℚ :=
  if data.length < period + 1 then 50
  else
    let changes := (data.zip (data.drop 1)).map (fun pc => pc.2.close - pc.1.close)
    let gains := changes.map (fun c => max 0 c)
    let losses := changes.map (fun c => max 0 (-c))
    let avgGain := (sliceLast period gains).foldl (· + ·) 0 / (period : ℚ)
    let avgLoss := (sliceLast period losses).foldl (· + ·) 0 / (period : ℚ)
    if avgLoss = 0 then 100
    else
      let rs := avgGain / avgLoss
      100 - 100 / (1 + rs)

/-- generateTradingSignal (source lines 283-339). The strategy argument is
received but, as in the source, never read. The slice(-11, -1) window is the
last eleven bars without the current one; slice(-1)[0] is the last element,
whose object truthiness test is its mere existence. -/
def generateTradingSignal (currentData : BacktestData) (strategy : IStrategy)
    (historicalData : List BacktestData) : TradingSignal :=
  if historicalData.length < 20 then
    { type := .HOLD, strength := 0, price := currentData.close,
      timestamp := currentData.timestamp, reasoning := "Insufficient historical data" }
  else
    let recentData := sliceLast 20 historicalData
    let shortMA := sumCloses (sliceLast 10 recentData) / 10
    let longMA := sumCloses recentData / 20
    let prevShortMA := sumCloses (sliceLast 11 recentData).dropLast / 10
    let prevLongMA :=
      if recentData.getLast?.isSome then sumCloses recentData.dropLast / (20 - 1) else longMA
    let rsi := calculateRSI recentData 14
    if shortMA > longMA ∧ prevShortMA ≤ prevLongMA ∧ rsi < 70 then
      { type := .BUY, strength := min 1 ((shortMA - longMA) / longMA + (70 - rsi) / 100),
        price := currentData.close, timestamp := currentData.timestamp,
        reasoning := "MA crossover bullish, RSI: " ++ toFixedOne rsi }
    else if shortMA < longMA ∧ prevShortMA ≥ prevLongMA ∧ rsi > 30 then
      { type := .SELL, strength := min 1 ((longMA - shortMA) / longMA + (rsi - 30) / 100),
        price := currentData.close, timestamp := currentData.timestamp,
        reasoning := "MA crossover bearish, RSI: " ++ toFixedOne rsi }
    else
      { type := .HOLD, strength := 0, price := currentData.close,
        timestamp := currentData.timestamp, reasoning := "No clear signal" }

/-- C7: with fewer than 20 bars of history the signal generator returns HOLD with
strength 0 and a reasoning string stating insufficient data, and raises no
error (it is total and returns this defined signal state). -/
theorem insufficient_history_yields_hold (currentData : BacktestData)
    (strategy : IStrategy) (historicalData : List BacktestData)
    (h : historicalData.length < 20) :
    generateTradingSignal currentData strategy historicalData =
      { type := .HOLD, strength := 0, price := currentData.close,
        timestamp := currentData.timestamp,
        reasoning := "Insufficient historical data" } := by
  unfold generateTradingSignal
  rw [if_pos h]

theorem insufficient_history_yields_hold_witness :
    ([] : List BacktestData).length < 20 ∧
      generateTradingSignal ⟨0, "A", 1, 1, 1, 1, 0⟩ ⟨[]⟩ [] =
        { type := .HOLD, strength := 0, price := 1, timestamp := 0,
          reasoning := "Insufficient historical data" } :=
  ⟨by decide, insufficient_history_yields_hold ⟨0, "A", 1, 1, 1, 1, 0⟩ ⟨[]⟩ [] (by decide)⟩

/-- executeEntry (source lines 368-401): commit min(10 percent of cash, 20 percent
of initial capital); reject below the 1000 minimum or beyond available cash;
entry price carries unfavorable slippage; fixed 5 percent stop and 15 percent
take-profit brackets. -/
def executeEntry (signal : TradingSignal) (data : BacktestData)
    (availableCapital : ℚ) (parameters : BacktestParameters) : Option BacktestPosition :=
  let positionSize := min (availableCapital * 0.1) (parameters.initialCapital * 0.2)
  if positionSize < 1000 then none
  else
    let entryPrice := data.close * (1 + parameters.slippage / 100)
    let quantity : ℤ := ⌊positionSize / entryPrice⌋
    let actualValue := (quantity : ℚ) * entryPrice + parameters.commission
    if actualValue > availableCapital then none
    else
      some { symbol := data.symbol, side := .LONG, entryPrice,
             entryDate := data.timestamp, quantity,
             stopLoss := some (entryPrice * 0.95),
             takeProfit := some (entryPrice * 1.15), value := actualValue }

/-- closePosition (source lines 459-485): exit price carries unfavorable slippage,
commission is charged for entry and exit, holding period is the ceiling of the
day difference. -/
def closePosition (position : BacktestPosition) (exitPrice : ℚ) (exitDate : ℤ)
    (reason : ExitReason) (parameters : BacktestParameters) : BacktestTrade :=
  let adjustedExitPrice := exitPrice * (1 - parameters.slippage / 100)
  let profit := (adjustedExitPrice - position.entryPrice) * (position.quantity : ℚ) -
    parameters.commission * 2
  let profitPercent := profit / (position.entryPrice * (position.quantity : ℚ)) * 100
  let holdingPeriod : ℤ := ⌈((exitDate - position.entryDate : ℤ) : ℚ) / 86400000⌉
  { symbol := position.symbol, side := position.side, entryPrice := position.entryPrice,
    exitPrice := adjustedExitPrice, entryDate := position.entryDate, exitDate,
    quantity := position.quantity, profit, profitPercent,
    commission := parameters.commission * 2, holdingPeriod, reason }

/-- JavaScript truthiness of an optional numeric field: undefined and 0 are falsy. -/
def truthy : Option ℚ → Bool
  | none => false
  | some q => q != 0

/-- The exit rule evaluated once per day per open position (source lines 426-438):
stop-loss first, then take-profit, each guarded by the truthiness of the level. -/
def exitDecision (position : BacktestPosition) (symbolData : BacktestData) :
    Option (ExitReason × ℚ) :=
  if truthy position.stopLoss ∧ symbolData.low ≤ position.stopLoss.getD 0 then
    some (.STOP_LOSS, position.stopLoss.getD 0)
  else if truthy position.takeProfit ∧ symbolData.high ≥ position.takeProfit.getD 0 then
    some (.TAKE_PROFIT, position.takeProfit.getD 0)
  else none

structure ProcessResult where
  closedTrades : List BacktestTrade
  remainingPositions : List BacktestPosition
  capitalFromClosedTrades : ℚ
deriving DecidableEq

/-- processExistingPositions (source lines 406-454): each position either closes at
the decided exit price (returning sale proceeds minus one commission to cash) or
remains open; a position whose symbol has no bar today remains open. -/
def processExistingPositions (positions : List BacktestPosition)
    (dayData : List BacktestData) (parameters : BacktestParameters) : ProcessResult :=
  positions.foldl (fun acc position =>
    match dayData.find? (fun d => d.symbol == position.symbol) with
    | none => { acc with remainingPositions := acc.remainingPositions ++ [position] }
    | some symbolData =>
      match exitDecision position symbolData with
      | some (reason, exitPrice) =>
        let trade := closePosition position exitPrice symbolData.timestamp reason parameters
        { acc with
            closedTrades := acc.closedTrades ++ [trade],
            capitalFromClosedTrades := acc.capitalFromClosedTrades +
              ((trade.quantity : ℚ) * exitPrice - parameters.commission) }
      | none => { acc with remainingPositions := acc.remainingPositions ++ [position] })
    ⟨[], [], 0⟩

/-- Mark-to-market price of one open position for the daily equity computation
(source line 174): the close of the day bar for its symbol, or the entry price
when there is no such bar or its close is 0 (JavaScript or-default on a falsy
close). -/
def markPrice (dayData : List BacktestData) (position : BacktestPosition) : ℚ :=
  match dayData.find? (fun d => d.symbol == position.symbol) with
  | some d => if d.close = 0 then position.entryPrice else d.close
  | none => position.entryPrice

/-- The open-position value summed into daily equity (source lines 173-176). -/
def positionValue (dayData : List BacktestData) (positions : List BacktestPosition) : ℚ :=
  positions.foldl (fun s pos => s + (pos.quantity : ℚ) * markPrice dayData pos) 0

/-- The calendar-day key of groupDataByDate: toISOString().split("T")[0] identifies
the UTC day of a timestamp, here as the floor of milliseconds over 86400000. -/
def dayKey (t : ℤ) : ℤ := Int.fdiv t 86400000

/-- The sorted distinct day keys the simulation loop iterates over (source lines
133-134); the lexicographic sort of ISO date strings is their chronological
order. -/
def datesOf (data : List BacktestData) : List ℤ :=
  List.insertionSort (· ≤ ·) (data.map (fun b => dayKey b.timestamp)).dedup

/-- The bars grouped under one day key, in data order (source lines 271-278). -/
def dayDataOf (data : List BacktestData) (k : ℤ) : List BacktestData :=
  data.filter (fun b => dayKey b.timestamp == k)

/-- The equity point appended for one simulated day (source lines 178-187):
drawdown is initial capital minus equity floored at 0, and drawdown percent is
drawdown over initial capital times 100. -/
def equityPointFor (parameters : BacktestParameters) (dateKey : ℤ)
    (currentEquity : ℚ) : EquityPoint :=
  { date := dateKey * 86400000, equity := currentEquity,
    drawdown := max 0 (parameters.initialCapital - currentEquity),
    drawdownPercent :=
      max 0 (parameters.initialCapital - currentEquity) / parameters.initialCapital * 100 }

structure SimState where
  currentCapital : ℚ
  positions : List BacktestPosition
  trades : List BacktestTrade
  equityCurve : List EquityPoint
deriving DecidableEq

/-- The body of the daily simulation loop (source lines 136-188): process exits,
then scan the day bars for BUY entries while capital and the position list
evolve, then append the equity point. The date value rebuilt from the day key is
the UTC midnight of that day, as new Date(dateStr) yields. -/
def processDay (parameters : BacktestParameters) (historicalData : List BacktestData)
    (st : SimState) (dateKey : ℤ) : SimState :=
  let date : ℤ := dateKey * 86400000
  let dayData := dayDataOf historicalData dateKey
  let pr := processExistingPositions st.positions dayData parameters
  let capital0 := st.currentCapital + pr.capitalFromClosedTrades
  let entries := dayData.foldl (fun (cp : ℚ × List BacktestPosition) symbolData =>
      let signal := generateTradingSignal symbolData parameters.strategy
        (historicalData.filter (fun d =>
          d.symbol == symbolData.symbol && decide (d.timestamp ≤ date)))
      if signal.type = .BUY ∧ cp.2.length < parameters.maxPositions then
        match executeEntry signal symbolData cp.1 parameters with
        | some newPosition => (cp.1 - newPosition.value, cp.2 ++ [newPosition])
        | none => cp
      else cp)
    (capital0, pr.remainingPositions)
  let currentEquity := entries.1 + positionValue dayData entries.2
  { currentCapital := entries.1, positions := entries.2,
    trades := st.trades ++ pr.closedTrades,
    equityCurve := st.equityCurve ++ [equityPointFor parameters dateKey currentEquity] }

/-- The full daily loop folded over the sorted day keys. -/
def simulateDays (parameters : BacktestParameters)
    (historicalData : List BacktestData) : SimState :=
  (datesOf historicalData).foldl (processDay parameters historicalData)
    ⟨parameters.initialCapital, [], [], []⟩

/-- The final available bar for a symbol: filter its bars and sort by timestamp
descending, take the first (source lines 192-194). A none result corresponds to
a JavaScript runtime error (a position for a symbol with no data), which cannot
arise because positions are only opened on days that have a bar. -/
def lastBarFor (data : List BacktestData) (symbol : String) : Option BacktestData :=
  (List.insertionSort (fun a b => b.timestamp ≤ a.timestamp)
    (data.filter (fun d => d.symbol == symbol))).head?

/-- The END_OF_PERIOD force-close of one still-open position at the final
available close price, dated at the configured end date (source lines 190-197). -/
def finalCloseTrade (data : List BacktestData) (parameters : BacktestParameters)
    (pos : BacktestPosition) : BacktestTrade :=
  let finalClose := match lastBarFor data pos.symbol with
    | some b => b.close
    | none => 0
  closePosition pos finalClose parameters.endDate .END_OF_PERIOD parameters

/-- One simulated day of OHLCV data for one symbol (source lines 235-262),
consuming five pseudo-random draws per day from the stream, indexed by a running
counter. The recursion counts down the remaining loop iterations. -/
def genDays (rand : ℕ → ℚ) (symbol : String) (startDate : ℤ) :
    ℕ → ℕ → ℕ → ℚ → List BacktestData × ℕ
  | 0, _, c, _ => ([], c)
  | remaining + 1, i, c, currentPrice =>
    let trend : ℚ := 0.0002
    let volatility : ℚ := 0.02
    let randomChange := (rand c - 0.5) * 2 * volatility
    let price := currentPrice * (1 + trend + randomChange)
    let dayVolatility := volatility * 0.5
    let high := price * (1 + rand (c + 1) * dayVolatility)
    let low := price * (1 - rand (c + 2) * dayVolatility)
    let open_ := low + rand (c + 3) * (high - low)
    let volume : ℤ := ⌊(1000000 : ℚ) + rand (c + 4) * 5000000⌋
    let rest := genDays rand symbol startDate remaining (i + 1) (c + 5) price
    (⟨startDate + (i : ℤ) * 86400000, symbol, open_, high, low, price, volume⟩ :: rest.1,
      rest.2)

/-- generateHistoricalData (source lines 224-266) with Math.random made explicit:
per symbol, one draw seeds the starting price and each of the days+1 loop
iterations consumes five draws. -/
def generateHistoricalData (rand : ℕ → ℚ) (symbols : List String)
    (startDate endDate : ℤ) : List BacktestData :=
  let iterations : ℕ := (⌈((endDate - startDate : ℤ) : ℚ) / 86400000⌉ + 1).toNat
  (symbols.foldl (fun (acc : List BacktestData × ℕ) symbol =>
      let startPrice := 100 + rand acc.2 * 200
      let res := genDays rand symbol startDate iterations 0 (acc.2 + 1) startPrice
      (acc.1 ++ res.1, res.2)) ([], 0)).1

/-- calculateVolatility (source lines 581-588): sample standard deviation, 0 for
fewer than two returns. -/
def calculateVolatility (rt : JsRuntime) (returns : List ℚ) : ℚ :=
  if returns.length < 2 then 0
  else
    let mean := returns.foldl (· + ·) 0 / (returns.length : ℚ)
    let variance := (returns.foldl (fun s r => s + (r - mean) ^ 2) 0) / ((returns.length : ℚ) - 1)
    rt.sqrtF variance

/-- The consecutive-point daily returns of the equity curve (source lines 509-512).
A zero previous equity divides by zero, which this rational embedding evaluates
to 0 where JavaScript would produce an infinity; the engine never branches on
these values other than through calculateVolatility. -/
def dailyReturnsOf (equityCurve : List EquityPoint) : List ℚ :=
  (equityCurve.zip (equityCurve.drop 1)).map
    (fun pc => (pc.2.equity - pc.1.equity) / pc.1.equity)

/-- JavaScript Math.max over a spread list. The engine only applies it to nonempty
lists (the empty case would be -Infinity). -/
def maxOfList (l : List ℚ) : ℚ :=
  match l with
  | [] => 0
  | h :: t => t.foldl max h

def getEmptyMetrics : BacktestMetrics :=
  ⟨0, 0, 0, 0, 0, 0, 0, 0, 0, 0, 0, 0, 0, 0, 0, 0, 0, 0, 0, 0⟩

/-- calculateMetrics (source lines 490-576). -/
def calculateMetrics (rt : JsRuntime) (trades : List BacktestTrade)
    (equityCurve : List EquityPoint) (parameters : BacktestParameters) : BacktestMetrics :=
  if trades.length = 0 ∨ equityCurve.length = 0 then getEmptyMetrics
  else
    let finalEquity := (equityCurve.getLastD ⟨0, 0, 0, 0⟩).equity
    let totalReturn := finalEquity - parameters.initialCapital
    let totalReturnPercent := totalReturn / parameters.initialCapital * 100
    let days : ℚ := equityCurve.length
    let years := days / 365
    let annualizedReturn :=
      if years > 0 then (rt.powF (finalEquity / parameters.initialCapital) (1 / years) - 1) * 100
      else 0
    let dailyReturns := dailyReturnsOf equityCurve
    let avgDailyReturn := dailyReturns.foldl (· + ·) 0 / (dailyReturns.length : ℚ)
    let dailyRiskFreeRate := riskFreeRate / 365
    let excessReturn := avgDailyReturn - dailyRiskFreeRate
    let volatility := calculateVolatility rt dailyReturns
    let sharpeRatio := if volatility > 0 then excessReturn / volatility * rt.sqrtF 365 else 0
    let maxDrawdown := maxOfList (equityCurve.map (fun e => e.drawdown))
    let maxDrawdownPercent := maxOfList (equityCurve.map (fun e => e.drawdownPercent))
    let winningTrades := trades.filter (fun t => decide (t.profit > 0))
    let losingTrades := trades.filter (fun t => decide (t.profit < 0))
    let winRate := (winningTrades.length : ℚ) / (trades.length : ℚ) * 100
    let averageWin :=
      if winningTrades.length > 0 then
        (winningTrades.foldl (fun s t => s + t.profit) 0) / (winningTrades.length : ℚ)
      else 0
    let averageLoss :=
      if losingTrades.length > 0 then
        |(losingTrades.foldl (fun s t => s + t.profit) 0) / (losingTrades.length : ℚ)|
      else 0
    let profitFactor := if averageLoss > 0 then averageWin / averageLoss else 0
    let largestWin := trades.foldl (fun m t => max m t.profit) 0
    let largestLoss := trades.foldl (fun m t => min m t.profit) 0
    let averageHoldingPeriod :=
      (trades.foldl (fun s t => s + (t.holdingPeriod : ℚ)) 0) / (trades.length : ℚ)
    let totalCommissions := trades.foldl (fun s t => s + t.commission) 0
    let calmarRatio := if maxDrawdownPercent > 0 then annualizedReturn / maxDrawdownPercent else 0
    let downsideReturns := dailyReturns.filter (fun r => decide (r < 0))
    let downsideVolatility :=
      if downsideReturns.length > 0 then calculateVolatility rt downsideReturns else 0
    let sortinoRatio :=
      if downsideVolatility > 0 then excessReturn / downsideVolatility * rt.sqrtF 365 else 0
    { totalReturn, totalReturnPercent, annualizedReturn, sharpeRatio, maxDrawdown,
      maxDrawdownPercent, volatility := volatility * rt.sqrtF 365 * 100,
      totalTrades := trades.length, winningTrades := winningTrades.length,
      losingTrades := losingTrades.length, winRate, averageWin, averageLoss, profitFactor,
      largestWin, largestLoss, averageHoldingPeriod, totalCommissions, calmarRatio,
      sortinoRatio }

/-- calculateMonthlyReturns (source lines 593-616): points bucketed by calendar
month key in first-occurrence order; each bucket keeps its first and last
equity. -/
def calculateMonthlyReturns (rt : JsRuntime)
    (equityCurve : List EquityPoint) : List MonthlyReturn :=
  ((equityCurve.map (fun pt => rt.monthKeyF pt.date)).dedup).map (fun m =>
    let pts := equityCurve.filter (fun pt => rt.monthKeyF pt.date == m)
    let start := (pts.headD ⟨0, 0, 0, 0⟩).equity
    let stop := (pts.getLastD ⟨0, 0, 0, 0⟩).equity
    let returnAmount := stop - start
    { month := m, ret := returnAmount,
      returnPercent := if start > 0 then returnAmount / start * 100 else 0 })

/-- calculatePerformanceStats (source lines 621-652): month extremes and counts,
and the longest win and loss streaks in trade order. -/
def calculatePerformanceStats (trades : List BacktestTrade)
    (monthlyReturns : List MonthlyReturn) : PerformanceStats :=
  let pcts := monthlyReturns.map (fun m => m.returnPercent)
  let streaks := trades.foldl (fun (acc : ℕ × ℕ × ℕ × ℕ) t =>
      if t.profit > 0 then (max acc.1 (acc.2.2.1 + 1), acc.2.1, acc.2.2.1 + 1, 0)
      else if t.profit < 0 then (acc.1, max acc.2.1 (acc.2.2.2 + 1), 0, acc.2.2.2 + 1)
      else acc)
    (0, 0, 0, 0)
  { bestMonth := pcts.foldl max 0, worstMonth := pcts.foldl min 0,
    positiveMonths := (pcts.filter (fun r => decide (r > 0))).length,
    negativeMonths := (pcts.filter (fun r => decide (r < 0))).length,
    maxConsecutiveWins := streaks.1, maxConsecutiveLosses := streaks.2.1 }

/-- runBacktest (source lines 118-219) over an explicit random stream: generate
data, fold the daily loop, force-close survivors, derive metrics and the
monthly and streak statistics. -/
def runBacktest (rt : JsRuntime) (parameters : BacktestParameters)
    (rand : ℕ → ℚ) : BacktestResult :=
  let historicalData :=
    generateHistoricalData rand parameters.symbols parameters.startDate parameters.endDate
  let st := simulateDays parameters historicalData
  let trades := st.trades ++ st.positions.map (finalCloseTrade historicalData parameters)
  let monthlyReturns := calculateMonthlyReturns rt st.equityCurve
  { strategy := parameters.strategy, parameters,
    metrics := calculateMetrics rt trades st.equityCurve parameters, trades,
    equityCurve := st.equityCurve, monthlyReturns,
    performanceStats := calculatePerformanceStats trades monthlyReturns }

/-- A concrete runtime used for concrete evaluations; the equity curve and trade
list of a run never consult sqrt, pow or the month key. -/
def concreteRuntime : JsRuntime := ⟨fun q => q, fun _ _ => 0, fun _ => ""⟩

/-- A concrete 22-day single-symbol backtest configuration: 100000 initial
capital, no commission, no slippage, at most one position. -/
def exampleParameters : BacktestParameters :=
  { strategy := ⟨[]⟩, startDate := 0, endDate := 21 * 86400000,
    initialCapital := 100000, symbols := ["A"], commission := 0, slippage := 0,
    maxPositions := 1 }

/-- A concrete Math.random draw sequence (one draw seeds the start price, five per
simulated day). It produces a flat-then-dip-then-rally close path on which the
moving-average crossover emits a BUY on day 19, so the run carries an open
position whose value first rises and then falls. -/
def exampleDraws : List ℚ :=
  [0, 99/200, 0, 0, 0, 0, 99/200, 0, 0, 0, 0, 149/200, 0, 0, 0, 0, 99/200, 0,
   0, 0, 0, 149/200, 0, 0, 0, 0, 149/200, 0, 0, 0, 0, 3/25, 0, 0, 0, 0, 3/25,
   0, 0, 0, 0, 99/200, 0, 0, 0, 0, 149/200, 0, 0, 0, 0, 99/200, 0, 0, 0, 0,
   149/200, 0, 0, 0, 0, 49/200, 0, 0, 0, 0, 99/200, 0, 0, 0, 0, 3/25, 0, 0,
   0, 0, 99/200, 0, 0, 0, 0, 199/200, 0, 0, 0, 0, 49/200, 0, 0, 0, 0,
   199/200, 0, 0, 0, 0, 149/200, 0, 0, 0, 0, 199/200, 0, 0, 0, 0, 49/200, 0,
   0, 0, 0]

def exampleRand : ℕ → ℚ := fun n => exampleDraws.getD n 0

/-- A second draw sequence for the same parameters: every draw 0, giving a
steadily declining close path on which no BUY signal ever fires. -/
def flatRand : ℕ → ℚ := fun _ => 0

/-- A one-day configuration used to instantiate hypotheses of the universally
quantified theorems at a concrete run. -/
def witnessParameters : BacktestParameters :=
  { strategy := ⟨[]⟩, startDate := 0, endDate := 0,
    initialCapital := 100000, symbols := ["A"], commission := 0, slippage := 0,
    maxPositions := 1 }

/-- The running peak equity over the first i+1 points of an equity curve: the
notion of peak the specification defines drawdown against. -/
def runningPeak (curve : List EquityPoint) (i : ℕ) : ℚ :=
  maxOfList ((curve.take (i + 1)).map (fun pt => pt.equity))

/-- The drawdown discipline claim C1 asserts of every produced equity curve,
stated from the specification words: drawdown is running peak minus equity
floored at zero, drawdown percent is drawdown over the running peak times 100,
and drawdown is 0 exactly where equity attains the running maximum. -/
def peakDrawdownInvariant (curve : List EquityPoint) : Prop :=
  ∀ i, ∀ h : i < curve.length,
    (curve.get ⟨i, h⟩).drawdown =
        max 0 (runningPeak curve i - (curve.get ⟨i, h⟩).equity) ∧
      (curve.get ⟨i, h⟩).drawdownPercent =
        (curve.get ⟨i, h⟩).drawdown / runningPeak curve i * 100 ∧
      ((curve.get ⟨i, h⟩).drawdown = 0 ↔ (curve.get ⟨i, h⟩).equity = runningPeak curve i)

theorem processDay_curve (parameters : BacktestParameters)
    (historicalData : List BacktestData) (st : SimState) (k : ℤ) :
    ∃ e, (processDay parameters historicalData st k).equityCurve =
      st.equityCurve ++ [equityPointFor parameters k e] :=
  ⟨_, rfl⟩

theorem foldl_processDay_curve_prop (parameters : BacktestParameters)
    (historicalData : List BacktestData) (P : EquityPoint → Prop)
    (hP : ∀ k e, P (equityPointFor parameters k e)) :
    ∀ (l : List ℤ) (st : SimState), (∀ pt ∈ st.equityCurve, P pt) →
      ∀ pt ∈ (l.foldl (processDay parameters historicalData) st).equityCurve, P pt := by
  intro l
  induction l with
  | nil => intro st h; simpa using h
  | cons k rest ih =>
    intro st h pt hpt
    refine ih (processDay parameters historicalData st k) ?_ pt hpt
    intro q hq
    obtain ⟨e, he⟩ := processDay_curve parameters historicalData st k
    rw [he] at hq
    rcases List.mem_append.mp hq with h1 | h2
    · exact h q h1
    · rw [List.mem_singleton.mp h2]
      exact hP k e

/-- C1 (amended): at every point of every produced equity curve, the drawdown is
the initial capital minus the equity floored at 0 (not the running peak minus
equity), the drawdown percent is drawdown over the initial capital times 100,
and the drawdown is 0 exactly where equity is at least the initial capital. -/
theorem equity_drawdown_relative_to_initial_capital (rt : JsRuntime)
    (parameters : BacktestParameters) (rand : ℕ → ℚ) (pt : EquityPoint)
    (hmem : pt ∈ (runBacktest rt parameters rand).equityCurve) :
    pt.drawdown = max 0 (parameters.initialCapital - pt.equity) ∧
      pt.drawdownPercent = pt.drawdown / parameters.initialCapital * 100 ∧
      (pt.drawdown = 0 ↔ parameters.initialCapital ≤ pt.equity) := by
  refine foldl_processDay_curve_prop parameters _
    (fun q => q.drawdown = max 0 (parameters.initialCapital - q.equity) ∧
      q.drawdownPercent = q.drawdown / parameters.initialCapital * 100 ∧
      (q.drawdown = 0 ↔ parameters.initialCapital ≤ q.equity)) ?_ _ _ (by simp) pt hmem
  intro k e
  refine ⟨rfl, rfl, ?_⟩
  show max 0 (parameters.initialCapital - e) = 0 ↔ parameters.initialCapital ≤ e
  rw [max_eq_left_iff, sub_nonpos]

theorem equity_drawdown_relative_to_initial_capital_witness :
    (⟨0, 100000, 0, 0⟩ : EquityPoint) ∈
        (runBacktest concreteRuntime witnessParameters flatRand).equityCurve ∧
      ((⟨0, 100000, 0, 0⟩ : EquityPoint).drawdown =
          max 0 (witnessParameters.initialCapital - (⟨0, 100000, 0, 0⟩ : EquityPoint).equity) ∧
        (⟨0, 100000, 0, 0⟩ : EquityPoint).drawdownPercent =
          (⟨0, 100000, 0, 0⟩ : EquityPoint).drawdown / witnessParameters.initialCapital * 100 ∧
        ((⟨0, 100000, 0, 0⟩ : EquityPoint).drawdown = 0 ↔
          witnessParameters.initialCapital ≤ (⟨0, 100000, 0, 0⟩ : EquityPoint).equity)) := by
  have hcurve : (runBacktest concreteRuntime witnessParameters flatRand).equityCurve =
      [⟨0, 100000, 0, 0⟩] := by
    with_unfolding_all rfl
  have hmem : (⟨0, 100000, 0, 0⟩ : EquityPoint) ∈
      (runBacktest concreteRuntime witnessParameters flatRand).equityCurve := by
    rw [hcurve]
    exact List.mem_singleton.mpr rfl
  exact ⟨hmem, equity_drawdown_relative_to_initial_capital concreteRuntime
    witnessParameters flatRand ⟨0, 100000, 0, 0⟩ hmem⟩

/-- C1 (counterexample): a concrete run on which the produced equity curve
violates the running-peak drawdown discipline: its equity rises above the
initial capital on day 20 and falls back (while staying above the initial
capital) on day 21, where the recorded drawdown is 0 although the running peak
exceeds the equity. -/
theorem drawdown_not_relative_to_running_peak :
    ¬ peakDrawdownInvariant
        (runBacktest concreteRuntime exampleParameters exampleRand).equityCurve := by
  intro h
  have h21 := h 21 (by with_unfolding_all decide)
  exact absurd h21 (of_decide_eq_true (by with_unfolding_all rfl))

/-- C2 (amended): the simulation is a pure function of the backtest parameters
and the Math.random draw stream: two invocations with identical parameters and
identical draws produce identical results (trades, equity curve, metrics and
all). Reproducibility fails only through the draw stream, which the engine does
not control (see the counterexample). -/
theorem runBacktest_reproducible_for_identical_draws (rt : JsRuntime)
    (p₁ p₂ : BacktestParameters) (rand₁ rand₂ : ℕ → ℚ)
    (hp : p₁ = p₂) (hr : ∀ n, rand₁ n = rand₂ n) :
    runBacktest rt p₁ rand₁ = runBacktest rt p₂ rand₂ := by
  subst hp
  rw [funext hr]

theorem runBacktest_reproducible_for_identical_draws_witness :
    exampleParameters = exampleParameters ∧
      runBacktest concreteRuntime exampleParameters flatRand =
        runBacktest concreteRuntime exampleParameters flatRand :=
  ⟨rfl, runBacktest_reproducible_for_identical_draws concreteRuntime
    exampleParameters exampleParameters flatRand flatRand rfl (fun _ => rfl)⟩

/-- C2 (counterexample): two invocations of runBacktest with the identical
BacktestParameters value but different ambient Math.random draws produce
different trade lists (one trade versus none), so identical parameters alone do
not make results reproducible. -/
theorem runBacktest_differs_across_random_draws :
    (runBacktest concreteRuntime exampleParameters exampleRand).trades ≠
      (runBacktest concreteRuntime exampleParameters flatRand).trades :=
  of_decide_eq_true (by with_unfolding_all rfl)

/-- C6: for an open position with nonzero stop-loss s and take-profit t levels, on
a day whose bar for its symbol is symbolData, the exit rules apply in priority
order: low of day at most s closes the position at s with reason STOP_LOSS;
otherwise high of day at least t closes it at t with reason TAKE_PROFIT;
otherwise it remains open. And in every run, a position still open after the
daily loop is force-closed at the final available close price of its symbol,
dated at the configured end date, with reason END_OF_PERIOD. -/
theorem exit_priority_and_end_of_period_close
    (position : BacktestPosition) (dayData : List BacktestData)
    (symbolData : BacktestData) (s t : ℚ) (parameters : BacktestParameters)
    (rt : JsRuntime) (prm : BacktestParameters) (rand : ℕ → ℚ)
    (hfind : dayData.find? (fun d => d.symbol == position.symbol) = some symbolData)
    (hs : position.stopLoss = some s) (hs0 : s ≠ 0)
    (ht : position.takeProfit = some t) (ht0 : t ≠ 0) :
    (symbolData.low ≤ s →
      processExistingPositions [position] dayData parameters =
        ⟨[closePosition position s symbolData.timestamp .STOP_LOSS parameters], [],
          (position.quantity : ℚ) * s - parameters.commission⟩) ∧
    (¬ symbolData.low ≤ s → t ≤ symbolData.high →
      processExistingPositions [position] dayData parameters =
        ⟨[closePosition position t symbolData.timestamp .TAKE_PROFIT parameters], [],
          (position.quantity : ℚ) * t - parameters.commission⟩) ∧
    (¬ symbolData.low ≤ s → ¬ t ≤ symbolData.high →
      processExistingPositions [position] dayData parameters = ⟨[], [position], 0⟩) ∧
    (runBacktest rt prm rand).trades =
      (simulateDays prm
          (generateHistoricalData rand prm.symbols prm.startDate prm.endDate)).trades ++
        (simulateDays prm
            (generateHistoricalData rand prm.symbols prm.startDate
              prm.endDate)).positions.map
          (finalCloseTrade
            (generateHistoricalData rand prm.symbols prm.startDate prm.endDate) prm) := by
  have hstep : processExistingPositions [position] dayData parameters =
      match exitDecision position symbolData with
      | some (reason, exitPrice) =>
        ⟨[closePosition position exitPrice symbolData.timestamp reason parameters], [],
          0 + ((position.quantity : ℚ) * exitPrice - parameters.commission)⟩
      | none => ⟨[], [position], 0⟩ := by
    unfold processExistingPositions
    rw [List.foldl_cons, List.foldl_nil, hfind]
    rcases hdec : exitDecision position symbolData with _ | ⟨reason, exitPrice⟩ <;> simp [hdec, closePosition]
  have htruthy : truthy position.stopLoss = true := by simp [hs, truthy, hs0]
  refine ⟨?_, ?_, ?_, rfl⟩
  · intro hlow
    rw [hstep]
    have : exitDecision position symbolData = some (.STOP_LOSS, s) := by
      unfold exitDecision
      rw [if_pos ⟨htruthy, by rw [hs]; simpa using hlow⟩, hs]
      rfl
    rw [this]
    simp
  · intro hlow hhigh
    rw [hstep]
    have : exitDecision position symbolData = some (.TAKE_PROFIT, t) := by
      unfold exitDecision
      rw [if_neg, if_pos ⟨by simp [ht, truthy, ht0], by rw [ht]; simpa using hhigh⟩, ht]
      · rfl
      · rw [hs]
        simpa using fun _ => hlow
    rw [this]
    simp
  · intro hlow hhigh
    rw [hstep]
    have : exitDecision position symbolData = none := by
      unfold exitDecision
      rw [if_neg, if_neg]
      · rw [ht]
        simpa using fun _ => hhigh
      · rw [hs]
        simpa using fun _ => hlow
    rw [this]

theorem exit_priority_and_end_of_period_close_witness :
    (((99 : ℚ) ≤ 95 →
      processExistingPositions [⟨"A", .LONG, 100, 0, 10, some 95, some 115, 1000⟩]
          [⟨0, "A", 100, 104, 99, 103, 0⟩] exampleParameters =
        ⟨[closePosition ⟨"A", .LONG, 100, 0, 10, some 95, some 115, 1000⟩ 95 0
            .STOP_LOSS exampleParameters], [], (10 : ℚ) * 95 - 0⟩) ∧
    (¬ (99 : ℚ) ≤ 95 → (115 : ℚ) ≤ 104 →
      processExistingPositions [⟨"A", .LONG, 100, 0, 10, some 95, some 115, 1000⟩]
          [⟨0, "A", 100, 104, 99, 103, 0⟩] exampleParameters =
        ⟨[closePosition ⟨"A", .LONG, 100, 0, 10, some 95, some 115, 1000⟩ 115 0
            .TAKE_PROFIT exampleParameters], [], (10 : ℚ) * 115 - 0⟩) ∧
    (¬ (99 : ℚ) ≤ 95 → ¬ (115 : ℚ) ≤ 104 →
      processExistingPositions [⟨"A", .LONG, 100, 0, 10, some 95, some 115, 1000⟩]
          [⟨0, "A", 100, 104, 99, 103, 0⟩] exampleParameters =
        ⟨[], [⟨"A", .LONG, 100, 0, 10, some 95, some 115, 1000⟩], 0⟩) ∧
    (runBacktest concreteRuntime exampleParameters flatRand).trades =
      (simulateDays exampleParameters
          (generateHistoricalData flatRand exampleParameters.symbols
            exampleParameters.startDate exampleParameters.endDate)).trades ++
        (simulateDays exampleParameters
            (generateHistoricalData flatRand exampleParameters.symbols
              exampleParameters.startDate exampleParameters.endDate)).positions.map
          (finalCloseTrade
            (generateHistoricalData flatRand exampleParameters.symbols
              exampleParameters.startDate exampleParameters.endDate)
            exampleParameters)) := by
  refine exit_priority_and_end_of_period_close
    ⟨"A", .LONG, 100, 0, 10, some 95, some 115, 1000⟩
    [⟨0, "A", 100, 104, 99, 103, 0⟩] ⟨0, "A", 100, 104, 99, 103, 0⟩ 95 115
    exampleParameters concreteRuntime exampleParameters flatRand ?_ rfl ?_ rfl ?_
  · decide
  · decide
  · decide

/-- C10: in the daily equity computation, an open position whose symbol has no bar
today, or whose bar has a 0 (falsy) close, is marked to market at its entry
price, and the summed open-position value of the day uses exactly this mark
price per position. -/
theorem missing_quote_marks_position_at_entry_price
    (dayData : List BacktestData) (position : BacktestPosition)
    (positions : List BacktestPosition)
    (h : dayData.find? (fun d => d.symbol == position.symbol) = none ∨
      ∃ b, dayData.find? (fun d => d.symbol == position.symbol) = some b ∧ b.close = 0) :
    markPrice dayData position = position.entryPrice ∧
      positionValue dayData positions =
        positions.foldl (fun sum pos => sum + (pos.quantity : ℚ) * markPrice dayData pos) 0 := by
  refine ⟨?_, rfl⟩
  unfold markPrice
  rcases h with h | ⟨b, hb, hc⟩
  · rw [h]
  · rw [hb]
    simp [hc]

theorem missing_quote_marks_position_at_entry_price_witness :
    (([] : List BacktestData).find?
        (fun d => d.symbol == (⟨"A", .LONG, 100, 0, 10, some 95, some 115, 1000⟩ :
          BacktestPosition).symbol) = none ∨
      ∃ b, ([] : List BacktestData).find?
          (fun d => d.symbol == (⟨"A", .LONG, 100, 0, 10, some 95, some 115, 1000⟩ :
            BacktestPosition).symbol) = some b ∧ b.close = 0) ∧
      (markPrice [] ⟨"A", .LONG, 100, 0, 10, some 95, some 115, 1000⟩ = 100 ∧
        positionValue [] [] =
          ([] : List BacktestPosition).foldl
            (fun sum pos => sum + (pos.quantity : ℚ) * markPrice [] pos) 0) :=
  ⟨Or.inl rfl, missing_quote_marks_position_at_entry_price []
    ⟨"A", .LONG, 100, 0, 10, some 95, some 115, 1000⟩ [] (Or.inl rfl)⟩

/-- C8: on a nonempty trade list and equity curve, each of the Sharpe, Sortino and
Calmar ratios of the metrics report is exactly 0 whenever its denominator is 0:
zero daily-return volatility, no negative daily returns, and zero maximum
drawdown percent, respectively. In this total, rational-valued embedding the
computation returns plain values, never NaN, an infinity or an exception. -/
theorem degenerate_ratio_denominators_yield_zero (rt : JsRuntime)
    (trades : List BacktestTrade) (equityCurve : List EquityPoint)
    (parameters : BacktestParameters)
    (htr : trades ≠ []) (hcv : equityCurve ≠ []) :
    (calculateVolatility rt (dailyReturnsOf equityCurve) = 0 →
      (calculateMetrics rt trades equityCurve parameters).sharpeRatio = 0) ∧
    ((dailyReturnsOf equityCurve).filter (fun r => decide (r < 0)) = [] →
      (calculateMetrics rt trades equityCurve parameters).sortinoRatio = 0) ∧
    (maxOfList (equityCurve.map (fun e => e.drawdownPercent)) = 0 →
      (calculateMetrics rt trades equityCurve parameters).calmarRatio = 0) := by
  have hguard : ¬ (trades.length = 0 ∨ equityCurve.length = 0) := by
    simp [List.length_eq_zero, htr, hcv]
  unfold calculateMetrics
  rw [if_neg hguard]
  refine ⟨?_, ?_, ?_⟩
  · intro hvol
    simp only [hvol]
    norm_num
  · intro hdown
    simp only [hdown]
    norm_num
  · intro hmdd
    simp only [hmdd]
    norm_num

theorem degenerate_ratio_denominators_yield_zero_witness :
    ((calculateVolatility concreteRuntime
        (dailyReturnsOf [⟨0, 100, 0, 0⟩, ⟨86400000, 100, 0, 0⟩]) = 0 →
      (calculateMetrics concreteRuntime
          [closePosition ⟨"A", .LONG, 100, 0, 10, some 95, some 115, 1000⟩ 100 0
            .END_OF_PERIOD exampleParameters]
          [⟨0, 100, 0, 0⟩, ⟨86400000, 100, 0, 0⟩] exampleParameters).sharpeRatio = 0) ∧
    ((dailyReturnsOf [⟨0, 100, 0, 0⟩, ⟨86400000, 100, 0, 0⟩]).filter
        (fun r => decide (r < 0)) = [] →
      (calculateMetrics concreteRuntime
          [closePosition ⟨"A", .LONG, 100, 0, 10, some 95, some 115, 1000⟩ 100 0
            .END_OF_PERIOD exampleParameters]
          [⟨0, 100, 0, 0⟩, ⟨86400000, 100, 0, 0⟩] exampleParameters).sortinoRatio = 0) ∧
    (maxOfList ([⟨0, 100, 0, 0⟩, ⟨86400000, 100, 0, 0⟩].map
        (fun e : EquityPoint => e.drawdownPercent)) = 0 →
      (calculateMetrics concreteRuntime
          [closePosition ⟨"A", .LONG, 100, 0, 10, some 95, some 115, 1000⟩ 100 0
            .END_OF_PERIOD exampleParameters]
          [⟨0, 100, 0, 0⟩, ⟨86400000, 100, 0, 0⟩] exampleParameters).calmarRatio = 0)) := by
  refine degenerate_ratio_denominators_yield_zero concreteRuntime _ _ exampleParameters ?_ ?_
  · decide
  · decide

end Backtesting

namespace RiskManagement

inductive RiskTolerance where
  | LOW
  | MEDIUM
  | HIGH
deriving DecidableEq

/-- PositionSizingInput from src/lib/risk-management.ts; the optional fields keep
their defaulting (volatility 0.2, correlation 0) at the destructuring site. -/
structure PositionSizingInput where
  symbol : String
  entryPrice : ℚ
  stopLossPrice : ℚ
  portfolioValue : ℚ
  riskPerTrade : ℚ
  userRiskTolerance : RiskTolerance
  volatility : Option ℚ
  correlation : Option ℚ
deriving DecidableEq

structure PositionSizingResult where
  recommendedShares : ℤ
  recommendedValue : ℚ
  riskAmount : ℚ
  riskPercent : ℚ
  positionSizePercent : ℚ
  stopLossDistance : ℚ
  warnings : List String
  adjustments : List String
deriving DecidableEq

/-- defaultParameters.maxPositionSize of the RiskManager (20 percent). -/
def maxPositionSize : ℚ := 20

/-- defaultParameters.maxPortfolioRisk of the RiskManager (2 percent). -/
def maxPortfolioRisk : ℚ := 2

def toleranceMultiplier : RiskTolerance → ℚ
  | .LOW => 0.5
  | .MEDIUM => 1
  | .HIGH => 1.5

def volatilityOf (input : PositionSizingInput) : ℚ := input.volatility.getD 0.2

def correlationOf (input : PositionSizingInput) : ℚ := input.correlation.getD 0

/-- riskAmount of calculatePositionSize (source line 105): portfolio value times
the tolerance-scaled risk-per-trade percentage. -/
def riskAmountOf (input : PositionSizingInput) : ℚ :=
  input.portfolioValue *
    (input.riskPerTrade * toleranceMultiplier input.userRiskTolerance / 100)

/-- priceRisk (source line 106): absolute stop distance in price. -/
def priceRiskOf (input : PositionSizingInput) : ℚ :=
  |input.entryPrice - input.stopLossPrice|

/-- baseShares (source line 107). A zero priceRisk divides by zero: this rational
embedding yields 0 shares where JavaScript produces Infinity or NaN; either way
the final recommendation respects the position cap proved below. -/
def baseSharesOf (input : PositionSizingInput) : ℤ :=
  ⌊riskAmountOf input / priceRiskOf input⌋

/-- volatilityAdjustment (source line 111): 1/volatility clipped to [0.5, 1.5];
at volatility 0, JavaScript evaluates 1/0 to Infinity and the clip to 1.5,
which the embedding makes explicit. -/
def volatilityAdjustmentOf (input : PositionSizingInput) : ℚ :=
  max 0.5 (min 1.5 (if volatilityOf input = 0 then 1.5 else 1 / volatilityOf input))

def adjustedSharesOf (input : PositionSizingInput) : ℤ :=
  ⌊(baseSharesOf input : ℚ) * volatilityAdjustmentOf input⌋

def adjustedValueOf (input : PositionSizingInput) : ℚ :=
  (adjustedSharesOf input : ℚ) * input.entryPrice

/-- The position-size cap test of source line 120. -/
def exceedsCap (input : PositionSizingInput) : Prop :=
  adjustedValueOf input / input.portfolioValue * 100 > maxPositionSize

instance (input : PositionSizingInput) : Decidable (exceedsCap input) := by
  unfold exceedsCap
  infer_instance

/-- Shares after the 20 percent position-size clamp (source lines 120-125). -/
def cappedSharesOf (input : PositionSizingInput) : ℤ :=
  if exceedsCap input then
    ⌊input.portfolioValue * (maxPositionSize / 100) / input.entryPrice⌋
  else adjustedSharesOf input

/-- Shares after the high-correlation 30 percent reduction (source lines 128-133). -/
def finalSharesOf (input : PositionSizingInput) : ℤ :=
  if correlationOf input > 0.7 then ⌊(cappedSharesOf input : ℚ) * 0.7⌋
  else cappedSharesOf input

/-- calculatePositionSize (source lines 78-164). -/
def calculatePositionSize (input : PositionSizingInput) : PositionSizingResult :=
  let stopLossDistance := |input.entryPrice - input.stopLossPrice| / input.entryPrice * 100
  let finalShares := finalSharesOf input
  let finalValue := (finalShares : ℚ) * input.entryPrice
  let finalRiskAmount := (finalShares : ℚ) * priceRiskOf input
  let finalRiskPercent := finalRiskAmount / input.portfolioValue * 100
  let warnings :=
    (if exceedsCap input then ["Position size reduced to 20% limit"] else []) ++
    (if correlationOf input > 0.7 then
      ["Position size reduced due to high correlation with existing holdings"] else []) ++
    (if stopLossDistance > 10 then
      ["Stop-loss distance is high (>10%), consider tighter risk management"] else []) ++
    (if finalRiskPercent > maxPortfolioRisk then
      ["Risk per trade (" ++ Backtesting.toFixedTwo finalRiskPercent ++
        "%) exceeds recommended limit"] else []) ++
    (if volatilityOf input > 0.4 then
      ["High volatility asset - consider smaller position size"] else [])
  let adjustments :=
    (if exceedsCap input then
      ["Consider reducing position size or increasing stop-loss distance"] else []) ++
    (if correlationOf input > 0.7 then
      ["Consider diversifying into uncorrelated assets"] else []) ++
    (if volatilityOf input > 0.4 then
      ["Monitor position closely and consider trailing stops"] else [])
  { recommendedShares := max 0 finalShares, recommendedValue := finalValue,
    riskAmount := finalRiskAmount, riskPercent := finalRiskPercent,
    positionSizePercent := finalValue / input.portfolioValue * 100,
    stopLossDistance, warnings, adjustments }

theorem cappedShares_value_le_cap (input : PositionSizingInput)
    (he : 0 < input.entryPrice) (hp : 0 < input.portfolioValue) :
    (cappedSharesOf input : ℚ) * input.entryPrice ≤
      input.portfolioValue * (maxPositionSize / 100) := by
  unfold cappedSharesOf
  split_ifs with hcap
  · have hfl : ((⌊input.portfolioValue * (maxPositionSize / 100) / input.entryPrice⌋ : ℤ) : ℚ) ≤
        input.portfolioValue * (maxPositionSize / 100) / input.entryPrice :=
      Int.floor_le _
    calc ((⌊input.portfolioValue * (maxPositionSize / 100) / input.entryPrice⌋ : ℤ) : ℚ) *
        input.entryPrice
        ≤ input.portfolioValue * (maxPositionSize / 100) / input.entryPrice *
          input.entryPrice := by
          exact mul_le_mul_of_nonneg_right hfl he.le
      _ = input.portfolioValue * (maxPositionSize / 100) := by
          field_simp
          ring
  · have hle : adjustedValueOf input / input.portfolioValue * 100 ≤ maxPositionSize :=
      not_lt.mp hcap
    have h1 : adjustedValueOf input / input.portfolioValue ≤ maxPositionSize / 100 := by
      linarith
    have h2 : adjustedValueOf input ≤ input.portfolioValue * (maxPositionSize / 100) := by
      rw [div_le_iff₀ hp] at h1
      linarith [h1]
    exact h2

theorem finalShares_value_le_cap (input : PositionSizingInput)
    (he : 0 < input.entryPrice) (hp : 0 < input.portfolioValue) :
    (finalSharesOf input : ℚ) * input.entryPrice ≤
      input.portfolioValue * (maxPositionSize / 100) := by
  unfold finalSharesOf
  split_ifs with hcorr
  · rcases le_or_lt 0 (cappedSharesOf input) with hpos | hneg
    · have h1 : ((⌊(cappedSharesOf input : ℚ) * 0.7⌋ : ℤ) : ℚ) ≤ (cappedSharesOf input : ℚ) := by
        calc ((⌊(cappedSharesOf input : ℚ) * 0.7⌋ : ℤ) : ℚ) ≤ (cappedSharesOf input : ℚ) * 0.7 :=
            Int.floor_le _
          _ ≤ (cappedSharesOf input : ℚ) := by
            have h0 : (0 : ℚ) ≤ (cappedSharesOf input : ℚ) := by exact_mod_cast hpos
            nlinarith
      calc ((⌊(cappedSharesOf input : ℚ) * 0.7⌋ : ℤ) : ℚ) * input.entryPrice
          ≤ (cappedSharesOf input : ℚ) * input.entryPrice :=
            mul_le_mul_of_nonneg_right h1 he.le
        _ ≤ input.portfolioValue * (maxPositionSize / 100) :=
            cappedShares_value_le_cap input he hp
    · have h1 : ((⌊(cappedSharesOf input : ℚ) * 0.7⌋ : ℤ) : ℚ) ≤ 0 := by
        have : ((cappedSharesOf input : ℤ) : ℚ) < 0 := by exact_mod_cast hneg
        calc ((⌊(cappedSharesOf input : ℚ) * 0.7⌋ : ℤ) : ℚ) ≤ (cappedSharesOf input : ℚ) * 0.7 :=
            Int.floor_le _
          _ ≤ 0 := by nlinarith
      have hcapnn : 0 ≤ input.portfolioValue * (maxPositionSize / 100) := by
        have : (0 : ℚ) < maxPositionSize / 100 := by norm_num [maxPositionSize]
        positivity
      calc ((⌊(cappedSharesOf input : ℚ) * 0.7⌋ : ℤ) : ℚ) * input.entryPrice ≤ 0 := by
            nlinarith
        _ ≤ input.portfolioValue * (maxPositionSize / 100) := hcapnn
  · exact cappedShares_value_le_cap input he hp

/-- C5: for positive entry price and portfolio value, the recommended position
value (and the recommended share count times the entry price) never exceeds 20
percent of the portfolio value, and whenever the pre-cap position value exceeds
that cap the result is clamped under the cap and the clamp warning is emitted. -/
theorem position_value_capped_at_20_percent (input : PositionSizingInput)
    (he : 0 < input.entryPrice) (hp : 0 < input.portfolioValue) :
    (calculatePositionSize input).recommendedValue ≤
        input.portfolioValue * (maxPositionSize / 100) ∧
      ((calculatePositionSize input).recommendedShares : ℚ) * input.entryPrice ≤
        input.portfolioValue * (maxPositionSize / 100) ∧
      (exceedsCap input →
        "Position size reduced to 20% limit" ∈ (calculatePositionSize input).warnings) := by
  refine ⟨finalShares_value_le_cap input he hp, ?_, ?_⟩
  · show ((max 0 (finalSharesOf input) : ℤ) : ℚ) * input.entryPrice ≤
      input.portfolioValue * (maxPositionSize / 100)
    rcases le_or_lt 0 (finalSharesOf input) with hpos | hneg
    · rw [max_eq_right hpos]
      exact finalShares_value_le_cap input he hp
    · rw [max_eq_left hneg.le]
      have : (0 : ℚ) < maxPositionSize / 100 := by norm_num [maxPositionSize]
      have hcapnn : 0 ≤ input.portfolioValue * (maxPositionSize / 100) := by positivity
      simpa using hcapnn
  · intro hcap
    simp [calculatePositionSize, hcap]

theorem position_value_capped_at_20_percent_witness :
    (0 : ℚ) < 100 ∧ (0 : ℚ) < 100000 ∧
      ((calculatePositionSize ⟨"TEST", 100, 95, 100000, 2, .MEDIUM, none, none⟩).recommendedValue ≤
          (100000 : ℚ) * (maxPositionSize / 100) ∧
        ((calculatePositionSize ⟨"TEST", 100, 95, 100000, 2, .MEDIUM, none, none⟩).recommendedShares : ℚ) *
            (100 : ℚ) ≤ (100000 : ℚ) * (maxPositionSize / 100) ∧
        (exceedsCap ⟨"TEST", 100, 95, 100000, 2, .MEDIUM, none, none⟩ →
          "Position size reduced to 20% limit" ∈
            (calculatePositionSize ⟨"TEST", 100, 95, 100000, 2, .MEDIUM, none, none⟩).warnings)) :=
  ⟨by norm_num, by norm_num,
    position_value_capped_at_20_percent ⟨"TEST", 100, 95, 100000, 2, .MEDIUM, none, none⟩
      (by norm_num) (by norm_num)⟩

/-- C9: on entry 100, stop 95, portfolio 100000, risk 2 percent, MEDIUM tolerance
and default volatility, the risk amount is exactly 2000 and the base share
count exactly 400; the volatility adjustment (factor 1.5) then yields 600
shares worth 60000, the 20 percent cap clamps to 200 shares worth 20000, and
the returned sizing result carries exactly those post-adjustment values. -/
theorem sizing_scenario_exact_values :
    riskAmountOf ⟨"TEST", 100, 95, 100000, 2, .MEDIUM, none, none⟩ = 2000 ∧
      baseSharesOf ⟨"TEST", 100, 95, 100000, 2, .MEDIUM, none, none⟩ = 400 ∧
      adjustedSharesOf ⟨"TEST", 100, 95, 100000, 2, .MEDIUM, none, none⟩ = 600 ∧
      calculatePositionSize ⟨"TEST", 100, 95, 100000, 2, .MEDIUM, none, none⟩ =
        { recommendedShares := 200, recommendedValue := 20000, riskAmount := 1000,
          riskPercent := 1, positionSizePercent := 20, stopLossDistance := 5,
          warnings := ["Position size reduced to 20% limit"],
          adjustments := ["Consider reducing position size or increasing stop-loss distance"] } := by
  refine ⟨?_, ?_, ?_, ?_⟩ <;> with_unfolding_all rfl

end RiskManagement

namespace Backtesting

/-- One per-parameter optimization range of optimizeStrategy. -/
structure ParameterRange where
  min : ℚ
  max : ℚ
  step : ℚ
deriving DecidableEq

/-- The body of the value loop of generateParameterCombinations (source line 761):
for value from min while value ≤ max, stepping by step. The fuel argument makes
the recursion structural; parameterLoopValues passes the exact iteration count
of the source loop (proved as parameterLoopValues_eq below), and a nonpositive
step, which the optimize route schema forbids, would not terminate in the
source at all. -/
def parameterLoopGo : ℕ → ℚ → ℚ → ℚ → List ℚ
  | 0, _, _, _ => []
  | n + 1, mx, step, v =>
    if 0 < step ∧ v ≤ mx then v :: parameterLoopGo n mx step (v + step) else []

/-- The list of values one parameter range contributes, inclusive of both
endpoints per step. -/
def parameterLoopValues (mx step v : ℚ) : List ℚ :=
  parameterLoopGo (⌊(mx - v) / step⌋ + 1).toNat mx step v

theorem floor_step_shift (mx step v : ℚ) (hstep : 0 < step) :
    ⌊(mx - (v + step)) / step⌋ = ⌊(mx - v) / step⌋ - 1 := by
  have h : (mx - (v + step)) / step = (mx - v) / step - 1 := by
    field_simp
    ring
  rw [h]
  exact_mod_cast Int.floor_sub_int ((mx - v) / step) 1

/-- The source loop equation of parameterLoopValues: one iteration produces the
current value and continues from value + step while the condition holds. -/
theorem parameterLoopValues_eq (mx step v : ℚ) :
    parameterLoopValues mx step v =
      if 0 < step ∧ v ≤ mx then v :: parameterLoopValues mx step (v + step) else [] := by
  unfold parameterLoopValues
  rcases h : (⌊(mx - v) / step⌋ + 1).toNat with _ | n
  · rw [parameterLoopGo]
    split_ifs with hc
    · exfalso
      have hnn : 0 ≤ ⌊(mx - v) / step⌋ :=
        Int.le_floor.mpr (by
          push_cast
          exact div_nonneg (sub_nonneg.mpr hc.2) hc.1.le)
      omega
    · rfl
  · rw [parameterLoopGo]
    split_ifs with hc
    · have hshift : (⌊(mx - (v + step)) / step⌋ + 1).toNat = n := by
        rw [floor_step_shift mx step v hc.1]
        omega
      rw [hshift]
    · rfl

theorem parameterLoopValues_length (mx step v : ℚ) (hstep : 0 < step) :
    (parameterLoopValues mx step v).length = (⌊(mx - v) / step⌋ + 1).toNat := by
  unfold parameterLoopValues
  generalize hm : (⌊(mx - v) / step⌋ + 1).toNat = n
  induction n generalizing v with
  | zero => rfl
  | succ k ih =>
    have hnn : 0 ≤ ⌊(mx - v) / step⌋ := by omega
    have hle : v ≤ mx := by
      have hx : (0 : ℚ) ≤ (mx - v) / step := by
        have := Int.le_floor.mp hnn
        push_cast at this
        exact this
      have h2 : (0 : ℚ) ≤ mx - v := by
        have hmul := mul_nonneg hx hstep.le
        rwa [div_mul_cancel₀ _ (ne_of_gt hstep)] at hmul
      linarith
    rw [parameterLoopGo, if_pos ⟨hstep, hle⟩]
    have hshift : (⌊(mx - (v + step)) / step⌋ + 1).toNat = k := by
      rw [floor_step_shift mx step v hstep]
      omega
    simp [ih (v + step) hshift]

/-- generateParameterCombinations (source lines 746-769): the Cartesian product of
the per-range value lists, outermost range varying slowest, each combination
keyed in range order. -/
def generateParameterCombinations :
    List (String × ParameterRange) → List (List (String × ℚ))
  | [] => [[]]
  | (name, r) :: rest =>
    (parameterLoopValues r.max r.step r.min).flatMap (fun value =>
      (generateParameterCombinations rest).map (fun current => (name, value) :: current))

theorem length_flatMap_map_const {α β γ : Type} (l : List α) (m : List β)
    (g : α → β → γ) :
    (l.flatMap (fun v => m.map (g v))).length = l.length * m.length := by
  induction l with
  | nil => simp
  | cons a t ih => simp [List.flatMap_cons, ih, Nat.succ_mul, Nat.add_comm]

theorem generateParameterCombinations_length (ranges : List (String × ParameterRange)) :
    (generateParameterCombinations ranges).length =
      (ranges.map (fun nr => (parameterLoopValues nr.2.max nr.2.step nr.2.min).length)).prod := by
  induction ranges with
  | nil => rfl
  | cons nr rest ih =>
    rcases nr with ⟨name, r⟩
    rw [generateParameterCombinations, length_flatMap_map_const, ih]
    simp

/-- The strategy variant optimizeStrategy builds for one parameter combination
(source lines 706-716): base parameters plus one numeric parameter per key. -/
def testStrategyFor (baseStrategy : IStrategy) (params : List (String × ℚ)) : IStrategy :=
  ⟨baseStrategy.parameters ++ params.map (fun kv => ⟨kv.1, kv.2⟩)⟩

structure OptimizationEntry where
  parameters : List (String × ℚ)
  metrics : BacktestMetrics
deriving DecidableEq

/-- The accumulated state of the optimizeStrategy loop: the best strategy and
metrics so far (none before the first combination) and the appended results. -/
structure OptimizationOutcome where
  bestStrategy : IStrategy
  bestMetrics : Option BacktestMetrics
  optimizationResults : List OptimizationEntry
deriving DecidableEq

/-- One iteration of the optimizeStrategy loop (source lines 704-734): run the
variant, append its result, and take it as best exactly when there is no best
yet or its Sharpe ratio strictly exceeds the best one (the selection metric is
always the Sharpe ratio). -/
def optimizeStep (runMetrics : IStrategy → BacktestMetrics) (baseStrategy : IStrategy)
    (acc : OptimizationOutcome) (params : List (String × ℚ)) : OptimizationOutcome :=
  let testStrategy := testStrategyFor baseStrategy params
  let metrics := runMetrics testStrategy
  let better := match acc.bestMetrics with
    | none => true
    | some bm => decide (metrics.sharpeRatio > bm.sharpeRatio)
  { bestStrategy := if better then testStrategy else acc.bestStrategy,
    bestMetrics := if better then some metrics else acc.bestMetrics,
    optimizationResults := acc.optimizationResults ++ [⟨params, metrics⟩] }

/-- optimizeStrategy (source lines 685-741). The backtest run of each variant is
abstracted as the oracle runMetrics, because its value in the source depends on
the ambient Math.random draws; the enumeration, accumulation and best-selection
logic is the embedded code path. -/
def optimizeStrategy (runMetrics : IStrategy → BacktestMetrics) (baseStrategy : IStrategy)
    (parameterRanges : List (String × ParameterRange)) : OptimizationOutcome :=
  (generateParameterCombinations parameterRanges).foldl
    (optimizeStep runMetrics baseStrategy) ⟨baseStrategy, none, []⟩

/-- The four objectives the optimize route accepts. -/
inductive OptimizationMetric where
  | sharpeRatio
  | totalReturn
  | profitFactor
  | calmarRatio
deriving DecidableEq

def metricValue : OptimizationMetric → BacktestMetrics → ℚ
  | .sharpeRatio, m => m.sharpeRatio
  | .totalReturn, m => m.totalReturn
  | .profitFactor, m => m.profitFactor
  | .calmarRatio, m => m.calmarRatio

/-- The invariant the optimizeStrategy loop maintains: either nothing has run and
there is no best yet, or the recorded best metrics belong to one of the results
and carry the maximal Sharpe ratio among them. -/
def bestInvariant (acc : OptimizationOutcome) : Prop :=
  (acc.bestMetrics = none ∧ acc.optimizationResults = []) ∨
    ∃ bm, acc.bestMetrics = some bm ∧
      bm ∈ acc.optimizationResults.map (fun e => e.metrics) ∧
      ∀ e ∈ acc.optimizationResults, e.metrics.sharpeRatio ≤ bm.sharpeRatio

theorem optimizeStep_preserves (runMetrics : IStrategy → BacktestMetrics)
    (baseStrategy : IStrategy) (acc : OptimizationOutcome) (params : List (String × ℚ))
    (h : bestInvariant acc) :
    bestInvariant (optimizeStep runMetrics baseStrategy acc params) := by
  rcases h with ⟨hnone, hres⟩ | ⟨bm, hbm, hmem, hmax⟩
  · refine Or.inr ⟨runMetrics (testStrategyFor baseStrategy params), ?_, ?_, ?_⟩
    · simp [optimizeStep, hnone]
    · simp [optimizeStep, hres]
    · intro e he
      simp [optimizeStep, hres] at he
      rw [he]
  · by_cases hgt : (runMetrics (testStrategyFor baseStrategy params)).sharpeRatio >
        bm.sharpeRatio
    · refine Or.inr ⟨runMetrics (testStrategyFor baseStrategy params), ?_, ?_, ?_⟩
      · simp [optimizeStep, hbm, hgt]
      · simp [optimizeStep]
      · intro e he
        simp only [optimizeStep, List.mem_append, List.mem_singleton] at he
        rcases he with he | he
        · exact le_of_lt (lt_of_le_of_lt (hmax e he) hgt)
        · rw [he]
    · refine Or.inr ⟨bm, ?_, ?_, ?_⟩
      · simp [optimizeStep, hbm, hgt]
      · simp only [optimizeStep, List.map_append]
        exact List.mem_append.mpr (Or.inl hmem)
      · intro e he
        simp only [optimizeStep, List.mem_append, List.mem_singleton] at he
        rcases he with he | he
        · exact hmax e he
        · rw [he]
          exact not_lt.mp hgt

theorem foldl_optimizeStep_invariant (runMetrics : IStrategy → BacktestMetrics)
    (baseStrategy : IStrategy) :
    ∀ (l : List (List (String × ℚ))) (acc : OptimizationOutcome), bestInvariant acc →
      bestInvariant (l.foldl (optimizeStep runMetrics baseStrategy) acc) := by
  intro l
  induction l with
  | nil => intro acc h; exact h
  | cons p rest ih =>
    intro acc h
    exact ih _ (optimizeStep_preserves runMetrics baseStrategy acc p h)

theorem foldl_optimizeStep_length (runMetrics : IStrategy → BacktestMetrics)
    (baseStrategy : IStrategy) :
    ∀ (l : List (List (String × ℚ))) (acc : OptimizationOutcome),
      (l.foldl (optimizeStep runMetrics baseStrategy) acc).optimizationResults.length =
        acc.optimizationResults.length + l.length := by
  intro l
  induction l with
  | nil => intro acc; simp
  | cons p rest ih =>
    intro acc
    rw [List.foldl_cons, ih]
    simp [optimizeStep]
    omega

end Backtesting

namespace OptimizeRoute

open Backtesting

/-- The combination count the optimize route computes before running anything
(source route lines 93-96): the product over the ranges of
floor((max - min) / step) + 1. -/
def routeTotalCombinations (ranges : List ParameterRange) : ℤ :=
  ranges.foldl (fun total range => total * (⌊(range.max - range.min) / range.step⌋ + 1)) 1

/-- The route rejects the request (HTTP 400, before any simulation) exactly when
its computed combination count exceeds 100 (source route lines 98-103). -/
def routeRejects (ranges : List ParameterRange) : Prop :=
  100 < routeTotalCombinations ranges

instance (ranges : List ParameterRange) : Decidable (routeRejects ranges) := by
  unfold routeRejects
  infer_instance

/-- The number of parameter combinations the engine actually backtests for a
request: none when the route rejects it, otherwise one backtest per enumerated
combination (route line 132 and engine lines 702-704). -/
def combinationsActuallyRun (ranges : List (String × ParameterRange)) : ℕ :=
  if routeRejects (ranges.map Prod.snd) then 0
  else (generateParameterCombinations ranges).length

theorem routeTotalCombinations_eq_prod (ranges : List ParameterRange) :
    routeTotalCombinations ranges =
      (ranges.map (fun r => ⌊(r.max - r.min) / r.step⌋ + 1)).prod := by
  suffices h : ∀ (l : List ParameterRange) (init : ℤ),
      l.foldl (fun total range => total * (⌊(range.max - range.min) / range.step⌋ + 1)) init =
        init * (l.map (fun r => ⌊(r.max - r.min) / r.step⌋ + 1)).prod by
    simpa [routeTotalCombinations] using h ranges 1
  intro l
  induction l with
  | nil => intro init; simp
  | cons r t ih =>
    intro init
    simp only [List.foldl_cons, List.map_cons, List.prod_cons, ih]
    ring

theorem toNat_prod_cast (l : List ℤ) (h : (l.map Int.toNat).prod ≠ 0) :
    ((l.map Int.toNat).prod : ℤ) = l.prod := by
  induction l with
  | nil => simp
  | cons a t ih =>
    simp only [List.map_cons, List.prod_cons] at h ⊢
    have ha : a.toNat ≠ 0 := fun h0 => h (by simp [h0])
    have ht : (t.map Int.toNat).prod ≠ 0 := fun h0 => h (by simp [h0])
    rw [Nat.cast_mul, ih ht, Int.toNat_of_nonneg (by omega)]

/-- C3: when every range has a positive step (which the request schema enforces),
a request whose true parameter-grid size exceeds 100 is rejected by the route
before any simulation runs, and otherwise the number of combinations the engine
actually backtests equals that Cartesian-product grid size. -/
theorem optimization_grid_cap (ranges : List (String × ParameterRange))
    (hstep : ∀ nr ∈ ranges, 0 < nr.2.step) :
    (100 < (generateParameterCombinations ranges).length →
        routeRejects (ranges.map Prod.snd)) ∧
      ((generateParameterCombinations ranges).length ≤ 100 →
        combinationsActuallyRun ranges = (generateParameterCombinations ranges).length) := by
  have hN : (generateParameterCombinations ranges).length =
      ((ranges.map (fun nr => ⌊(nr.2.max - nr.2.min) / nr.2.step⌋ + 1)).map Int.toNat).prod := by
    rw [generateParameterCombinations_length]
    rw [List.map_map]
    congr 1
    refine List.map_congr_left ?_
    intro nr hnr
    exact parameterLoopValues_length nr.2.max nr.2.step nr.2.min (hstep nr hnr)
  have hT : routeTotalCombinations (ranges.map Prod.snd) =
      (ranges.map (fun nr => ⌊(nr.2.max - nr.2.min) / nr.2.step⌋ + 1)).prod := by
    rw [routeTotalCombinations_eq_prod, List.map_map]
    rfl
  constructor
  · intro hbig
    have hne : (generateParameterCombinations ranges).length ≠ 0 := by omega
    have hcast : ((generateParameterCombinations ranges).length : ℤ) =
        routeTotalCombinations (ranges.map Prod.snd) := by
      rw [hN, hT]
      exact toNat_prod_cast _ (hN ▸ hne)
    show 100 < routeTotalCombinations (ranges.map Prod.snd)
    rw [← hcast]
    exact_mod_cast hbig
  · intro hsmall
    unfold combinationsActuallyRun
    split_ifs with hrej
    · by_contra hzero
      have hne : (generateParameterCombinations ranges).length ≠ 0 := fun h0 => hzero (by omega)
      have hcast : ((generateParameterCombinations ranges).length : ℤ) =
          routeTotalCombinations (ranges.map Prod.snd) := by
        rw [hN, hT]
        exact toNat_prod_cast _ (hN ▸ hne)
      have : (100 : ℤ) < (generateParameterCombinations ranges).length := hcast ▸ hrej
      omega
    · rfl

theorem optimization_grid_cap_witness :
    (∀ nr ∈ [("x", (⟨1, 5, 1⟩ : ParameterRange))], 0 < nr.2.step) ∧
      ((100 < (generateParameterCombinations [("x", ⟨1, 5, 1⟩)]).length →
          routeRejects ([("x", (⟨1, 5, 1⟩ : ParameterRange))].map Prod.snd)) ∧
        ((generateParameterCombinations [("x", ⟨1, 5, 1⟩)]).length ≤ 100 →
          combinationsActuallyRun [("x", ⟨1, 5, 1⟩)] =
            (generateParameterCombinations [("x", ⟨1, 5, 1⟩)]).length)) :=
  ⟨by
    intro nr hnr
    rw [List.mem_singleton.mp hnr]
    norm_num,
    optimization_grid_cap [("x", ⟨1, 5, 1⟩)] (by
      intro nr hnr
      rw [List.mem_singleton.mp hnr]
      norm_num)⟩

/-- The descending sort the route applies to the optimization results by the
caller-selected metric (source route lines 147-151), modelled by a stable sort
under the total preorder the comparator induces. -/
def sortByMetricDescending (metric : OptimizationMetric)
    (results : List OptimizationEntry) : List OptimizationEntry :=
  List.insertionSort
    (fun a b => metricValue metric b.metrics ≤ metricValue metric a.metrics) results

/-- C4 (amended): the route returns the combinations ranked by the caller-selected
objective in descending order (a permutation of all enumerated results), but
the returned best combination is one attaining the maximum of the Sharpe
ratio over all enumerated combinations, whichever objective was selected; it
attains the maximum of the chosen objective only when that objective is the
Sharpe ratio (see the counterexample). -/
theorem optimizer_ranks_by_objective_but_best_by_sharpe
    (runMetrics : IStrategy → BacktestMetrics) (baseStrategy : IStrategy)
    (parameterRanges : List (String × ParameterRange)) (metric : OptimizationMetric)
    (hne : generateParameterCombinations parameterRanges ≠ []) :
    List.Sorted (fun a b => metricValue metric b.metrics ≤ metricValue metric a.metrics)
        (sortByMetricDescending metric
          (optimizeStrategy runMetrics baseStrategy parameterRanges).optimizationResults) ∧
      (sortByMetricDescending metric
          (optimizeStrategy runMetrics baseStrategy parameterRanges).optimizationResults).Perm
        (optimizeStrategy runMetrics baseStrategy parameterRanges).optimizationResults ∧
      ∃ bm, (optimizeStrategy runMetrics baseStrategy parameterRanges).bestMetrics = some bm ∧
        bm ∈ (optimizeStrategy runMetrics baseStrategy parameterRanges).optimizationResults.map
          (fun e => e.metrics) ∧
        ∀ e ∈ (optimizeStrategy runMetrics baseStrategy parameterRanges).optimizationResults,
          e.metrics.sharpeRatio ≤ bm.sharpeRatio := by
  haveI hTotal : IsTotal OptimizationEntry
      (fun a b => metricValue metric b.metrics ≤ metricValue metric a.metrics) :=
    ⟨fun a b => le_total (metricValue metric b.metrics) (metricValue metric a.metrics)⟩
  haveI hTrans : IsTrans OptimizationEntry
      (fun a b => metricValue metric b.metrics ≤ metricValue metric a.metrics) :=
    ⟨fun _ _ _ hab hbc => le_trans hbc hab⟩
  refine ⟨List.sorted_insertionSort _ _, List.perm_insertionSort _ _, ?_⟩
  have hinv := foldl_optimizeStep_invariant runMetrics baseStrategy
    (generateParameterCombinations parameterRanges) ⟨baseStrategy, none, []⟩
    (Or.inl ⟨rfl, rfl⟩)
  have hlen := foldl_optimizeStep_length runMetrics baseStrategy
    (generateParameterCombinations parameterRanges) ⟨baseStrategy, none, []⟩
  rcases hinv with ⟨_, hres⟩ | ⟨bm, hbm, hmem, hmax⟩
  · exfalso
    apply hne
    have : (generateParameterCombinations parameterRanges).length = 0 := by
      have := hres ▸ hlen
      simpa using this.symm
    exact List.length_eq_zero.mp this
  · exact ⟨bm, hbm, hmem, hmax⟩

theorem optimizer_ranks_by_objective_but_best_by_sharpe_witness :
    generateParameterCombinations [("p", (⟨0, 1, 1⟩ : ParameterRange))] ≠ [] ∧
      (List.Sorted
          (fun a b => metricValue .totalReturn b.metrics ≤ metricValue .totalReturn a.metrics)
          (sortByMetricDescending .totalReturn
            (optimizeStrategy (fun _ => getEmptyMetrics) ⟨[]⟩
              [("p", ⟨0, 1, 1⟩)]).optimizationResults) ∧
        (sortByMetricDescending .totalReturn
            (optimizeStrategy (fun _ => getEmptyMetrics) ⟨[]⟩
              [("p", ⟨0, 1, 1⟩)]).optimizationResults).Perm
          (optimizeStrategy (fun _ => getEmptyMetrics) ⟨[]⟩
            [("p", ⟨0, 1, 1⟩)]).optimizationResults ∧
        ∃ bm, (optimizeStrategy (fun _ => getEmptyMetrics) ⟨[]⟩
            [("p", ⟨0, 1, 1⟩)]).bestMetrics = some bm ∧
          bm ∈ (optimizeStrategy (fun _ => getEmptyMetrics) ⟨[]⟩
            [("p", ⟨0, 1, 1⟩)]).optimizationResults.map (fun e => e.metrics) ∧
          ∀ e ∈ (optimizeStrategy (fun _ => getEmptyMetrics) ⟨[]⟩
              [("p", ⟨0, 1, 1⟩)]).optimizationResults,
            e.metrics.sharpeRatio ≤ bm.sharpeRatio) :=
  ⟨by with_unfolding_all decide,
    optimizer_ranks_by_objective_but_best_by_sharpe (fun _ => getEmptyMetrics) ⟨[]⟩
      [("p", ⟨0, 1, 1⟩)] .totalReturn (by with_unfolding_all decide)⟩

/-- Metrics differing only in Sharpe ratio and total return, used to exhibit the
divergence between ranking objective and best-selection metric. -/
def mkMetrics (sharpe totalRet : ℚ) : BacktestMetrics :=
  { getEmptyMetrics with sharpeRatio := sharpe, totalReturn := totalRet }

/-- An oracle under which the strategy carrying parameter p = 0 has the higher
Sharpe ratio while the strategy carrying p = 1 has the higher total return. -/
def cexRunMetrics : IStrategy → BacktestMetrics := fun s =>
  if (⟨"p", 0⟩ : StrategyParameter) ∈ s.parameters then mkMetrics 1 0 else mkMetrics 0 10

def cexRanges : List (String × ParameterRange) := [("p", ⟨0, 1, 1⟩)]

/-- C4 (counterexample): with the chosen objective totalReturn, the returned best
combination does not attain the maximum of the chosen objective over the
enumerated combinations: the engine selects by Sharpe ratio, picking the
combination with total return 0 although one with total return 10 exists. -/
theorem optimizer_best_ignores_chosen_objective :
    ¬ (∀ bm, (optimizeStrategy cexRunMetrics ⟨[]⟩ cexRanges).bestMetrics = some bm →
        ∀ e ∈ (optimizeStrategy cexRunMetrics ⟨[]⟩ cexRanges).optimizationResults,
          metricValue .totalReturn e.metrics ≤ metricValue .totalReturn bm) := by
  intro h
  have hbest : (optimizeStrategy cexRunMetrics ⟨[]⟩ cexRanges).bestMetrics =
      some (mkMetrics 1 0) := by
    with_unfolding_all rfl
  have hmem : (⟨[("p", 1)], mkMetrics 0 10⟩ : OptimizationEntry) ∈
      (optimizeStrategy cexRunMetrics ⟨[]⟩ cexRanges).optimizationResults := by
    with_unfolding_all decide
  have hle := h _ hbest _ hmem
  have : ¬ ((10 : ℚ) ≤ 0) := by norm_num
  exact this hle

end OptimizeRoute

